import Mathlib

/-!
Verification development for the resume Q&A backend.

The Python source is shallowly embedded: the resume document and the
session table become Lean structures, the tool functions in
`backend/tools/resume_tools.py` become pure functions on the document,
and the orchestrator methods of `ResumeAgent` in
`backend/agents/resume_agent.py` become state-passing functions in which
the outcome of the one external agent call is an explicit parameter
(`Except` of error detail or produced output / chunk stream).
-/

/-! ## String helpers mirroring the Python primitives used by the source -/

/-- Whether the character is whitespace for Python `str.strip`. -/
def pyIsSpace (c : Char) : Bool :=
  c == ' ' || c == '\t' || c == '\n' || c == '\r' ||
    c == Char.ofNat 11 || c == Char.ofNat 12

/-- Python truthiness test `not s or not s.strip()` for a string:
true when the string is empty or all whitespace. -/
def pyBlank (s : String) : Bool :=
  s.data.all pyIsSpace

/-- Whether the first character list occurs at the start of the second. -/
def listStarts : List Char → List Char → Bool
  | [], _ => true
  | _ :: _, [] => false
  | a :: as, b :: bs => a == b && listStarts as bs

/-- Whether the first character list occurs contiguously anywhere in the
second. -/
def listOccurs (n : List Char) : List Char → Bool
  | [] => listStarts n []
  | b :: bs => listStarts n (b :: bs) || listOccurs n bs

/-- Python substring test `needle in hay`. -/
def pyIn (needle hay : String) : Bool :=
  listOccurs needle.data hay.data

/-- Python `s.lower()` (ASCII case mapping, which covers the document
strings). -/
def pyLower (s : String) : String :=
  String.mk (s.data.map Char.toLower)

/-- The single-quote character, used by Python `repr` and f-strings. -/
def squote : String :=
  String.singleton (Char.ofNat 39)

/-- Python `str(...)` of a list of strings, as produced when
`search_resume` stringifies a list-valued field: the elements
single-quoted and comma-joined inside brackets. -/
def pyReprStrList (xs : List String) : String :=
  "[" ++ String.intercalate ", " (xs.map (fun s => squote ++ s ++ squote)) ++ "]"

/-! ## Resume document data model (`backend/models/resume.py` schema,
as consumed by `backend/tools/resume_tools.py`)

Optional JSON fields are `Option`; a `none` stands for an absent key.
Mapping (dict) fields keep JSON insertion order as list order. -/

structure PersonalInfo where
  name : String
  email : String
  location : Option String
  phone : Option String
  linkedin : Option String
  github : Option String
  website : Option String
deriving DecidableEq, Repr

structure Education where
  institution : String
  degree : String
  field : String
  graduation_date : String
  gpa : Option String
  achievements : Option (List String)
deriving DecidableEq, Repr

structure Experience where
  company : String
  position : String
  start_date : String
  end_date : Option String
  description : List String
  technologies : List String
  location : Option String
deriving DecidableEq, Repr

structure Project where
  name : String
  description : String
  technologies : List String
  url : Option String
  github_url : Option String
  start_date : Option String
  end_date : Option String
deriving DecidableEq, Repr

structure ResumeDocument where
  personal_info : PersonalInfo
  summary : String
  education : List Education
  experience : List Experience
  skills : List (String × List String)
  projects : List Project
deriving DecidableEq, Repr

/-- A line `label ++ value` emitted only when the optional value is
Python-truthy (present and non-empty), as in
`if personal_info.get("phone"): result.append(...)`. -/
def optLine (label : String) (v : Option String) : List String :=
  match v with
  | some s => if s = "" then [] else [label ++ s]
  | none => []

/-! ## Tool functions (`backend/tools/resume_tools.py`) -/

/-- `get_personal_info(query)`: name, location-or-default, email, the
truthy optional contact lines, then the summary when non-empty. The
`query` argument is never consulted. -/
def get_personal_info (doc : ResumeDocument) (query : Option String) : String :=
  let pinfo := doc.personal_info
  let result :=
    ["Name: " ++ pinfo.name,
     "Location: " ++ pinfo.location.getD "Not specified",
     "Email: " ++ pinfo.email]
    ++ optLine "Phone: " pinfo.phone
    ++ optLine "LinkedIn: " pinfo.linkedin
    ++ optLine "GitHub: " pinfo.github
    ++ optLine "Website: " pinfo.website
    ++ (if doc.summary = "" then []
        else ["\nProfessional Summary:\n" ++ doc.summary])
  String.intercalate "\n" result

/-- The filter predicate of `get_education`: the lowered query occurs in
institution, degree or field (query already lowered). -/
def eduFilterMatch (ql : String) (edu : Education) : Bool :=
  pyIn ql (pyLower edu.institution) || pyIn ql (pyLower edu.degree) ||
    pyIn ql (pyLower edu.field)

/-- Rendering of one education entry. -/
def renderEducation (edu : Education) : String :=
  let info :=
    ["Institution: " ++ edu.institution,
     "Degree: " ++ edu.degree ++ " in " ++ edu.field,
     "Graduation: " ++ edu.graduation_date]
    ++ optLine "GPA: " edu.gpa
    ++ (match edu.achievements with
        | some a => if a = [] then [] else ["Achievements: " ++ String.intercalate ", " a]
        | none => [])
  String.intercalate "\n" info

/-- `get_education(query)`: filter entries by `eduFilterMatch` when the
query is non-blank, falling back to the full list when no entry
matches, then render the kept entries. -/
def get_education (doc : ResumeDocument) (query : Option String) : String :=
  let education_list :=
    match query with
    | some q =>
        if pyBlank q then doc.education
        else
          let filtered := doc.education.filter (eduFilterMatch (pyLower q))
          if filtered = [] then doc.education else filtered
    | none => doc.education
  String.intercalate "\n\n" (education_list.map renderEducation)

/-- The filter predicate of `get_experience`: lowered query occurs in
company, position, or any technology tag. -/
def expFilterMatch (ql : String) (exp : Experience) : Bool :=
  pyIn ql (pyLower exp.company) || pyIn ql (pyLower exp.position) ||
    exp.technologies.any (fun t => pyIn ql (pyLower t))

/-- Python `exp["end_date"] or "Present"`. -/
def endOrPresent (e : Option String) : String :=
  match e with
  | some s => if s = "" then "Present" else s
  | none => "Present"

/-- Rendering of one experience entry (the bullet literal is copied
byte-for-byte from the source file). -/
def renderExperience (exp : Experience) : String :=
  let info :=
    ["Company: " ++ exp.company,
     "Position: " ++ exp.position,
     "Duration: " ++ exp.start_date ++ " - " ++ endOrPresent exp.end_date]
    ++ optLine "Location: " exp.location
    ++ ["Key Accomplishments:"]
    ++ exp.description.map (fun d => "â€¢ " ++ d)
    ++ (if exp.technologies = [] then []
        else ["Technologies: " ++ String.intercalate ", " exp.technologies])
  String.intercalate "\n" info

/-- `get_experience(query)`: same filter-with-fallback policy, then
render the kept entries. -/
def get_experience (doc : ResumeDocument) (query : Option String) : String :=
  let experience_list :=
    match query with
    | some q =>
        if pyBlank q then doc.experience
        else
          let filtered := doc.experience.filter (expFilterMatch (pyLower q))
          if filtered = [] then doc.experience else filtered
    | none => doc.experience
  String.intercalate "\n\n" (experience_list.map renderExperience)

/-- The filter predicate of `get_skills`: lowered category argument
occurs in the category NAME only. -/
def skillCatMatch (cl : String) (p : String × List String) : Bool :=
  pyIn cl (pyLower p.1)

/-- One `Category: skill1, skill2, ...` line. -/
def renderSkillLine (p : String × List String) : String :=
  p.1 ++ ": " ++ String.intercalate ", " p.2

/-- `get_skills(category)`: keep categories whose name contains the
argument (case-insensitive) when it is non-blank, falling back to all
categories when none match, then render one line per kept category. -/
def get_skills (doc : ResumeDocument) (category : Option String) : String :=
  let skills_dict :=
    match category with
    | some c =>
        if pyBlank c then doc.skills
        else
          let filtered := doc.skills.filter (skillCatMatch (pyLower c))
          if filtered = [] then doc.skills else filtered
    | none => doc.skills
  String.intercalate "\n" (skills_dict.map renderSkillLine)

/-- The filter predicate of `get_projects`: lowered query occurs in
name, description, or any technology tag. -/
def projFilterMatch (ql : String) (p : Project) : Bool :=
  pyIn ql (pyLower p.name) || pyIn ql (pyLower p.description) ||
    p.technologies.any (fun t => pyIn ql (pyLower t))

/-- Rendering of one project entry. -/
def renderProject (p : Project) : String :=
  let info :=
    ["Project: " ++ p.name,
     "Description: " ++ p.description,
     "Technologies: " ++ String.intercalate ", " p.technologies]
    ++ optLine "Live Demo: " p.url
    ++ optLine "GitHub: " p.github_url
    ++ (match p.start_date, p.end_date with
        | some s, some e =>
            if s = "" || e = "" then []
            else ["Timeline: " ++ s ++ " - " ++ e]
        | _, _ => [])
  String.intercalate "\n" info

/-- `get_projects(query)`: same filter-with-fallback policy, then
render the kept entries. -/
def get_projects (doc : ResumeDocument) (query : Option String) : String :=
  let projects_list :=
    match query with
    | some q =>
        if pyBlank q then doc.projects
        else
          let filtered := doc.projects.filter (projFilterMatch (pyLower q))
          if filtered = [] then doc.projects else filtered
    | none => doc.projects
  String.intercalate "\n\n" (projects_list.map renderProject)

/-! ## `search_resume` (`backend/tools/resume_tools.py`, lines 258-333)

Each section loop in the source appends the header and the unfiltered
rendering on the first matching record and then breaks; the
`"HEADER:" not in results` membership guard can never fire a second
time because of the break, so each loop is a single conditional
append. -/

/-- The personal-info values scanned by `search_resume`: the string
values present in the `personal_info` dict. -/
def piSearchValues (p : PersonalInfo) : List String :=
  [p.name, p.email] ++ p.location.toList ++ p.phone.toList ++
    p.linkedin.toList ++ p.github.toList ++ p.website.toList

/-- Section match for personal info: the lowered keyword occurs in some
personal-info value or in the summary. -/
def piSearchMatch (doc : ResumeDocument) (kl : String) : Bool :=
  (piSearchValues doc.personal_info).any (fun v => pyIn kl (pyLower v)) ||
    pyIn kl (pyLower doc.summary)

/-- The string/list-valued fields of an education entry as stringified
by `search_resume` (`str(value)` on each value that is a str or list). -/
def eduSearchValues (edu : Education) : List String :=
  [edu.institution, edu.degree, edu.field, edu.graduation_date] ++
    edu.gpa.toList ++ (edu.achievements.map pyReprStrList).toList

/-- Section match for one education entry. -/
def eduSearchMatch (kl : String) (edu : Education) : Bool :=
  (eduSearchValues edu).any (fun v => pyIn kl (pyLower v))

/-- The space-joined text built by `search_resume` from one experience
entry's string/list values, in the document field order. -/
def expSearchText (exp : Experience) : String :=
  String.intercalate " "
    ([exp.company, exp.position, exp.start_date] ++ exp.end_date.toList ++
      [pyReprStrList exp.description, pyReprStrList exp.technologies] ++
      exp.location.toList)

/-- Section match for one experience entry. -/
def expSearchMatch (kl : String) (exp : Experience) : Bool :=
  pyIn kl (pyLower (expSearchText exp))

/-- Section match for one skills category: keyword in the category name
or in some skill name. -/
def skillSearchMatch (kl : String) (p : String × List String) : Bool :=
  pyIn kl (pyLower p.1) || p.2.any (fun s => pyIn kl (pyLower s))

/-- The space-joined text built by `search_resume` from one project's
string/list values, in the document field order. -/
def projSearchText (p : Project) : String :=
  String.intercalate " "
    ([p.name, p.description, pyReprStrList p.technologies] ++ p.url.toList ++
      p.github_url.toList ++ p.start_date.toList ++ p.end_date.toList)

/-- Section match for one project entry. -/
def projSearchMatch (kl : String) (p : Project) : Bool :=
  pyIn kl (pyLower (projSearchText p))

/-- The `results` list built by `search_resume` for a lowered keyword:
for each section, in the fixed source order, a header label followed by
that section's unfiltered rendering when some record of the section
matches. -/
def searchResults (doc : ResumeDocument) (kl : String) : List String :=
  (if piSearchMatch doc kl then
      ["PERSONAL INFO:", get_personal_info doc none] else [])
  ++ (if doc.education.any (eduSearchMatch kl) then
      ["EDUCATION:", get_education doc none] else [])
  ++ (if doc.experience.any (expSearchMatch kl) then
      ["EXPERIENCE:", get_experience doc none] else [])
  ++ (if doc.skills.any (skillSearchMatch kl) then
      ["SKILLS:", get_skills doc none] else [])
  ++ (if doc.projects.any (projSearchMatch kl) then
      ["PROJECTS:", get_projects doc none] else [])

/-- `search_resume(keyword)`: guidance message on a blank keyword, the
joined section results otherwise, or the not-found message naming the
keyword when no section matched. -/
def search_resume (doc : ResumeDocument) (keyword : String) : String :=
  if pyBlank keyword then "Please provide a keyword to search for."
  else
    let results := searchResults doc (pyLower keyword)
    if results = [] then
      "No information found related to " ++ squote ++ keyword ++ squote ++
        " in the resume."
    else String.intercalate "\n\n" results

/-! ## Session memory store and orchestrator (`backend/agents/resume_agent.py`)

`ResumeAgent.memory_store` is a dict from session id to a
`ConversationBufferMemory` holding an ordered message list; it is
modelled as a function from session id to an optional transcript
(`none` = id absent from the dict). The outcome of the single external
`agent_executor` call in each turn is an explicit `Except` parameter:
`Except.error e` stands for a raised exception whose `str(e)` is `e`. -/

inductive Message where
  | human : String → Message
  | ai : String → Message
deriving DecidableEq, Repr

def Store : Type := String → Option (List Message)

/-- The empty `memory_store` of a fresh `ResumeAgent`. -/
def emptyStore : Store := fun _ => none

/-- The message list seen by a turn after `_get_or_create_memory`:
the stored transcript, or the fresh empty one. -/
def getMessages (store : Store) (sid : String) : List Message :=
  (store sid).getD []

/-- Write back a session's transcript (dict entry update/insert). -/
def setMessages (store : Store) (sid : String) (msgs : List Message) : Store :=
  fun s => if s = sid then some msgs else store s

/-- The user-facing apology synthesized by `ResumeAgent.chat` on an
error `e` from the external call. -/
def apologyMsg (e : String) : String :=
  "I apologize, but I encountered an error processing your question: " ++ e ++
    ". Please try rephrasing your question or ask about a specific aspect of the resume."

/-- `ResumeAgent.chat(message, session_id)`: run the external agent call
(outcome given as a parameter), append the human message and either the
produced output or the synthesized apology as the assistant message,
and return that text together with the updated store. Both branches
return normally: nothing raises past this point. -/
def ResumeAgent.chat (outcome : Except String String) (message : String)
    (sid : String) (store : Store) : String × Store :=
  let chat_history := getMessages store sid
  match outcome with
  | Except.ok output =>
      (output,
       setMessages store sid
         (chat_history ++ [Message.human message, Message.ai output]))
  | Except.error e =>
      let error_msg := apologyMsg e
      (error_msg,
       setMessages store sid
         (chat_history ++ [Message.human message, Message.ai error_msg]))

/-- One step of the streaming loop in `ResumeAgent.stream_chat`: a chunk
carrying an `"output"` key is both recorded in `response_chunks` (first
component) and yielded (second component); other chunks are skipped. -/
def streamStep (acc : List String × List String) (c : Option String) :
    List String × List String :=
  match c with
  | some content => (acc.1 ++ [content], acc.2 ++ [content])
  | none => acc

/-- The error text yielded and recorded by `ResumeAgent.stream_chat`
when the external stream raises `e`. -/
def streamErrMsg (e : String) : String :=
  "I encountered an error: " ++ e ++ ". Please try again."

/-- `ResumeAgent.stream_chat(message, session_id)`: on success the
external call produces a chunk sequence (each chunk's `"output"` value,
when present, as `some`); the matching fragments are yielded in order
and their concatenation is appended as the assistant message. On an
error the single error fragment is yielded and appended instead.
Returns the yielded fragment list and the updated store. -/
def ResumeAgent.stream_chat (outcome : Except String (List (Option String)))
    (message : String) (sid : String) (store : Store) :
    List String × Store :=
  let chat_history := getMessages store sid
  match outcome with
  | Except.ok chunks =>
      let acc := chunks.foldl streamStep ([], [])
      let full_response := String.join acc.1
      (acc.2,
       setMessages store sid
         (chat_history ++ [Message.human message, Message.ai full_response]))
  | Except.error e =>
      let error_msg := streamErrMsg e
      ([error_msg],
       setMessages store sid
         (chat_history ++ [Message.human message, Message.ai error_msg]))

/-- `ResumeAgent.clear_memory(session_id)`: delete the session's dict
entry when present; leave the dict untouched otherwise. -/
def ResumeAgent.clear_memory (sid : String) (store : Store) : Store :=
  match store sid with
  | some _ => fun s => if s = sid then none else store s
  | none => store

/-- One entry of the history snapshot returned by
`ResumeAgent.get_session_history`. -/
structure HistoryEntry where
  type : String
  content : String
deriving DecidableEq, Repr

/-- The role/content view of one stored message. -/
def toHistoryEntry (m : Message) : HistoryEntry :=
  match m with
  | Message.human c => HistoryEntry.mk "human" c
  | Message.ai c => HistoryEntry.mk "ai" c

/-- `ResumeAgent.get_session_history(session_id)`: empty list for an
absent session, otherwise the role-tagged view of the stored messages
in order. -/
def ResumeAgent.get_session_history (sid : String) (store : Store) :
    List HistoryEntry :=
  match store sid with
  | none => []
  | some msgs => msgs.map toHistoryEntry

/-- A sequence of successful chat turns `(message, response)` run
against one session, as in repeated `POST /api/chat` calls. -/
def runTurns (sid : String) (turns : List (String × String))
    (store : Store) : Store :=
  turns.foldl (fun st t => (ResumeAgent.chat (Except.ok t.2) t.1 sid st).2) store

/-! ## Transport layer (`backend/api/chat.py` and `backend/main.py`)

A `POST /api/chat` body is modelled by its two relevant fields. The
required `message: str` field of the `ChatMessage` pydantic model makes
the framework raise `RequestValidationError` when the field is absent;
`validation_exception_handler` in `backend/main.py` answers status 422.
A present message reaches `chat_endpoint`, which answers 400 when the
string is falsy (empty) and otherwise returns the agent's answer with
status 200 (`ResumeAgent.chat` never raises, see the orchestrator). -/

structure ChatRequestBody where
  message : Option String
  session_id : Option String
deriving DecidableEq, Repr

/-- HTTP status produced for a `POST /api/chat` request body. -/
def chat_endpoint_status (body : ChatRequestBody) : Nat :=
  match body.message with
  | none => 422
  | some m => if m = "" then 400 else 200

/-! ## Concrete documents and stores used by witnesses and counterexamples -/

/-- A concrete store holding one transcript under session id `beta`. -/
def storeW : Store := setMessages emptyStore "beta" [Message.human "hello"]

def piW : PersonalInfo :=
  PersonalInfo.mk "Ada Lovelace" "ada@example.com" none none none none none

def eduA : Education := Education.mk "Tech University" "BSc" "CS" "2015" none none

def eduB : Education := Education.mk "MIT" "MSc" "Math" "2017" none none

/-- A document with two education entries: only `eduA` contains a space
in its institution/degree/field strings. -/
def docEdu : ResumeDocument := ResumeDocument.mk piW "" [eduA, eduB] [] [] []

/-- A document whose single skill category matches no filter below. -/
def docSkills : ResumeDocument :=
  ResumeDocument.mk piW "" [] [] [("Frameworks", ["React"])] []

def expW : Experience :=
  Experience.mk "Acme Corp" "Backend Developer" "2019" (some "2021")
    ["Built APIs"] ["Python", "FastAPI"] (some "NYC")

def projW : Project :=
  Project.mk "Portfolio Site" "Personal website" ["TypeScript"] none none none none

/-- A document containing `Python` in both the skills and the experience
sections and nowhere else. -/
def docW : ResumeDocument :=
  ResumeDocument.mk piW "Engineer who loves automation" [eduA] [expW]
    [("Programming Languages", ["Python", "Go"]), ("Frameworks", ["React"])]
    [projW]

/-! ## Helper lemmas -/

lemma getMessages_setMessages (store : Store) (sid : String) (l : List Message) :
    getMessages (setMessages store sid l) sid = l := by
  simp [getMessages, setMessages]

lemma get_session_history_eq_map (sid : String) (store : Store) :
    ResumeAgent.get_session_history sid store =
      (getMessages store sid).map toHistoryEntry := by
  cases hss : store sid with
  | none => simp [ResumeAgent.get_session_history, getMessages, hss]
  | some l => simp [ResumeAgent.get_session_history, getMessages, hss]

lemma runTurns_getMessages (sid : String) (turns : List (String × String)) :
    ∀ store : Store,
      getMessages (runTurns sid turns store) sid =
        getMessages store sid ++
          turns.flatMap (fun t => [Message.human t.1, Message.ai t.2]) := by
  induction turns with
  | nil => intro store; simp [runTurns]
  | cons t ts ih =>
      intro store
      have hstep : runTurns sid (t :: ts) store =
          runTurns sid ts ((ResumeAgent.chat (Except.ok t.2) t.1 sid store).2) := rfl
      rw [hstep, ih]
      have h2 : getMessages ((ResumeAgent.chat (Except.ok t.2) t.1 sid store).2) sid =
          getMessages store sid ++ [Message.human t.1, Message.ai t.2] := by
        simp [ResumeAgent.chat, getMessages_setMessages]
      rw [h2]
      simp [List.flatMap_cons, List.append_assoc]

lemma flatMap_pair_length {α β : Type} (f g : α → β) (l : List α) :
    (l.flatMap fun a => [f a, g a]).length = 2 * l.length := by
  induction l with
  | nil => rfl
  | cons a as ih =>
      simp only [List.flatMap_cons, List.length_append, List.length_cons, ih,
        List.length_nil]
      omega

lemma streamStep_foldl_diag (chunks : List (Option String)) :
    ∀ a : List String,
      (List.foldl streamStep (a, a) chunks).1 =
        (List.foldl streamStep (a, a) chunks).2 := by
  induction chunks with
  | nil => intro a; rfl
  | cons c cs ih =>
      intro a
      cases c with
      | none => simpa [streamStep] using ih a
      | some s => simpa [streamStep] using ih (a ++ [s])

/-! ## Claim theorems -/

/-- Claim C1: a chat turn whose external agent call raises error detail
`e` still appends exactly one human message (the input) and one
assistant message to that session's transcript, and the returned text
(a total function value, never a raised exception) contains the literal
error detail as a substring. -/
theorem chat_error_appends_and_returns_apology (e message sid : String)
    (store : Store) :
    getMessages (ResumeAgent.chat (Except.error e) message sid store).2 sid =
      getMessages store sid ++
        [Message.human message,
         Message.ai (ResumeAgent.chat (Except.error e) message sid store).1] ∧
    ∃ a b : String,
      (ResumeAgent.chat (Except.error e) message sid store).1 = a ++ e ++ b := by
  refine ⟨?_,
    "I apologize, but I encountered an error processing your question: ",
    ". Please try rephrasing your question or ask about a specific aspect of the resume.",
    rfl⟩
  simp [ResumeAgent.chat, getMessages_setMessages, apologyMsg]

/-- Claim C3: after N successful chat turns on a session whose
transcript starts absent (empty or just cleared), the history snapshot
lists, in call order, the human then the assistant message of each
turn, and has length exactly 2N. -/
theorem chat_turns_history_snapshot (sid : String)
    (turns : List (String × String)) (store : Store) (h : store sid = none) :
    ResumeAgent.get_session_history sid (runTurns sid turns store) =
      turns.flatMap (fun t =>
        [HistoryEntry.mk "human" t.1, HistoryEntry.mk "ai" t.2]) ∧
    (ResumeAgent.get_session_history sid (runTurns sid turns store)).length =
      2 * turns.length := by
  have h1 : ResumeAgent.get_session_history sid (runTurns sid turns store) =
      turns.flatMap (fun t =>
        [HistoryEntry.mk "human" t.1, HistoryEntry.mk "ai" t.2]) := by
    rw [get_session_history_eq_map, runTurns_getMessages]
    simp [getMessages, h, List.map_flatMap, toHistoryEntry]
  refine ⟨h1, ?_⟩
  rw [h1]
  exact flatMap_pair_length _ _ turns

/-- Witness for C3: two concrete turns on a fresh store produce the
four expected snapshot entries. -/
theorem chat_turns_history_snapshot_witness :
    ResumeAgent.get_session_history "s1"
        (runTurns "s1" [("q1", "a1"), ("q2", "a2")] emptyStore) =
      [HistoryEntry.mk "human" "q1", HistoryEntry.mk "ai" "a1",
       HistoryEntry.mk "human" "q2", HistoryEntry.mk "ai" "a2"] ∧
    (ResumeAgent.get_session_history "s1"
        (runTurns "s1" [("q1", "a1"), ("q2", "a2")] emptyStore)).length = 2 * 2 :=
  chat_turns_history_snapshot "s1" [("q1", "a1"), ("q2", "a2")] emptyStore rfl

/-- Claim C4: for a streaming chat turn that completes without error,
the concatenation (in emission order) of the yielded fragments equals
the content of the assistant message appended to the session's
transcript at the end of the turn. -/
theorem stream_chat_concat_eq_appended (chunks : List (Option String))
    (message sid : String) (store : Store) :
    getMessages
        (ResumeAgent.stream_chat (Except.ok chunks) message sid store).2 sid =
      getMessages store sid ++
        [Message.human message,
         Message.ai (String.join
           (ResumeAgent.stream_chat (Except.ok chunks) message sid store).1)] := by
  have hdiag := streamStep_foldl_diag chunks []
  simp [ResumeAgent.stream_chat, getMessages_setMessages, hdiag]

/-- Claim C8: `get_personal_info` accepts a filter argument but never
applies it: the output is independent of the argument. -/
theorem get_personal_info_ignores_query (doc : ResumeDocument)
    (q1 q2 : Option String) :
    get_personal_info doc q1 = get_personal_info doc q2 := rfl

/-- Claim C9 counterexample: a request body with no `message` field is
answered with status 422 by the validation handler, not 400 as the
claim states. -/
theorem chat_missing_message_counterexample :
    chat_endpoint_status (ChatRequestBody.mk none none) ≠ 400 ∧
    chat_endpoint_status (ChatRequestBody.mk none none) = 422 := by
  decide

/-- Claim C9 as amended: a body lacking `message` is rejected with 422
(the validation error handler's status), while a present-but-empty
`message` is rejected with 400. -/
theorem chat_missing_message_status (body : ChatRequestBody) :
    (body.message = none → chat_endpoint_status body = 422) ∧
    (body.message = some "" → chat_endpoint_status body = 400) := by
  constructor
  · intro h
    unfold chat_endpoint_status
    rw [h]
  · intro h
    unfold chat_endpoint_status
    rw [h]
    rfl

/-- Witness for C9: the concrete missing-field and empty-field bodies. -/
theorem chat_missing_message_status_witness :
    chat_endpoint_status (ChatRequestBody.mk none none) = 422 ∧
    chat_endpoint_status (ChatRequestBody.mk (some "") none) = 400 :=
  ⟨(chat_missing_message_status (ChatRequestBody.mk none none)).1 rfl,
   (chat_missing_message_status (ChatRequestBody.mk (some "") none)).2 rfl⟩

/-- Claim C10: `clear_memory` affects at most the cleared session's
entry: any other session's history snapshot is unchanged, and clearing
an absent session id leaves the whole table unchanged. -/
theorem clear_memory_frame (sid : String) (store : Store) :
    (∀ sid2, sid2 ≠ sid →
        ResumeAgent.get_session_history sid2
            (ResumeAgent.clear_memory sid store) =
          ResumeAgent.get_session_history sid2 store) ∧
    (store sid = none → ResumeAgent.clear_memory sid store = store) := by
  constructor
  · intro sid2 h
    unfold ResumeAgent.clear_memory
    cases hs : store sid with
    | none => rfl
    | some l => simp [ResumeAgent.get_session_history, h]
  · intro h
    unfold ResumeAgent.clear_memory
    rw [h]

/-- Witness for C10: clearing `alpha` leaves `beta`'s history intact,
and clearing the empty store changes nothing. -/
theorem clear_memory_frame_witness :
    ResumeAgent.get_session_history "beta"
        (ResumeAgent.clear_memory "alpha" storeW) =
      ResumeAgent.get_session_history "beta" storeW ∧
    ResumeAgent.clear_memory "alpha" emptyStore = emptyStore :=
  ⟨(clear_memory_frame "alpha" storeW).1 "beta" (by decide),
   (clear_memory_frame "alpha" emptyStore).2 rfl⟩

/-- Claim C2: for a non-blank keyword with at least one matching
section, `search_resume` returns the join of the section results, and
the section results are, in the fixed order personal info, education,
experience, skills, projects, exactly one header label followed by the
section's unfiltered full rendering (the accessor called with no
filter) for each section with a matching record, and nothing for the
others. -/
theorem search_resume_renders_matching_sections (doc : ResumeDocument)
    (kw : String) (h : pyBlank kw = false)
    (hm : searchResults doc (pyLower kw) ≠ []) :
    search_resume doc kw =
      String.intercalate "\n\n" (searchResults doc (pyLower kw)) ∧
    searchResults doc (pyLower kw) =
      (if piSearchMatch doc (pyLower kw) then
          ["PERSONAL INFO:", get_personal_info doc none] else [])
      ++ (if doc.education.any (eduSearchMatch (pyLower kw)) then
          ["EDUCATION:", get_education doc none] else [])
      ++ (if doc.experience.any (expSearchMatch (pyLower kw)) then
          ["EXPERIENCE:", get_experience doc none] else [])
      ++ (if doc.skills.any (skillSearchMatch (pyLower kw)) then
          ["SKILLS:", get_skills doc none] else [])
      ++ (if doc.projects.any (projSearchMatch (pyLower kw)) then
          ["PROJECTS:", get_projects doc none] else []) := by
  refine ⟨?_, rfl⟩
  simp [search_resume, h, hm]

/-- Witness for C2: on `docW`, searching `Python` matches exactly the
experience and skills sections, whose headers each appear exactly once,
in the fixed order. -/
theorem search_resume_renders_matching_sections_witness :
    search_resume docW "Python" =
      String.intercalate "\n\n" (searchResults docW (pyLower "Python")) ∧
    searchResults docW (pyLower "Python") =
      ["EXPERIENCE:", get_experience docW none,
       "SKILLS:", get_skills docW none] := by
  refine
    ⟨(search_resume_renders_matching_sections docW "Python"
        (by decide) (by decide)).1, ?_⟩
  decide

/-- Claim C5 counterexample: the filter `" "` is a non-empty string
that matches `eduA` (whose lowered institution contains a space) and
not `eduB`, yet `get_education` renders both entries rather than only
the matching one, because the source treats blank-but-non-empty
filters like absent ones. -/
theorem get_education_blank_filter_counterexample :
    (" " : String) ≠ "" ∧
    eduFilterMatch " " eduA = true ∧
    eduFilterMatch " " eduB = false ∧
    get_education docEdu (some " ") ≠
      String.intercalate "\n\n" ([eduA].map renderEducation) := by
  decide

/-- Claim C5 as amended: for every NON-BLANK filter (non-empty after
stripping whitespace), when no education entry matches, the output
equals the unfiltered output; when at least one matches, exactly the
matching entries are rendered. -/
theorem get_education_filter_fallback (doc : ResumeDocument) (q : String)
    (h : pyBlank q = false) :
    (doc.education.filter (eduFilterMatch (pyLower q)) = [] →
        get_education doc (some q) = get_education doc none) ∧
    (doc.education.filter (eduFilterMatch (pyLower q)) ≠ [] →
        get_education doc (some q) =
          String.intercalate "\n\n"
            ((doc.education.filter (eduFilterMatch (pyLower q))).map
              renderEducation)) := by
  constructor
  · intro he
    simp [get_education, h, he]
  · intro hn
    simp [get_education, h, hn]

/-- Witness for C5: a non-matching filter falls back to the full list,
and the filter `MIT` keeps exactly the matching entry. -/
theorem get_education_filter_fallback_witness :
    get_education docEdu (some "Nonexistent") = get_education docEdu none ∧
    get_education docEdu (some "MIT") =
      String.intercalate "\n\n"
        ((docEdu.education.filter (eduFilterMatch (pyLower "MIT"))).map
          renderEducation) :=
  ⟨(get_education_filter_fallback docEdu "Nonexistent" (by decide)).1 (by decide),
   (get_education_filter_fallback docEdu "MIT" (by decide)).2 (by decide)⟩

/-- Claim C6 counterexample: with the single category `Frameworks` and
the argument `zz`, no category name matches, but `get_skills` returns
the full rendering rather than keeping exactly the (empty) matching
set: the claim omits the fallback-to-all-on-empty-match policy. -/
theorem get_skills_no_match_counterexample :
    docSkills.skills.filter (skillCatMatch "zz") = [] ∧
    get_skills docSkills (some "zz") = "Frameworks: React" ∧
    ("Frameworks: React" : String) ≠ "" := by
  decide

/-- Claim C6 as amended: for a non-blank category argument,
`get_skills` keeps exactly the categories whose NAME contains the
argument (case-insensitive) when at least one matches, and falls back
to all categories when none does; skill names are never consulted, so
on a document with categories `Programming Languages` and `Frameworks`
the argument `Programming` yields only the matching category's line,
whatever the skill lists are. -/
theorem get_skills_category_filter (doc : ResumeDocument) (c : String)
    (h : pyBlank c = false) :
    (doc.skills.filter (skillCatMatch (pyLower c)) ≠ [] →
        get_skills doc (some c) =
          String.intercalate "\n"
            ((doc.skills.filter (skillCatMatch (pyLower c))).map
              renderSkillLine)) ∧
    (doc.skills.filter (skillCatMatch (pyLower c)) = [] →
        get_skills doc (some c) = get_skills doc none) ∧
    (∀ ps fs : List String,
        get_skills
          (ResumeDocument.mk doc.personal_info doc.summary doc.education
            doc.experience
            [("Programming Languages", ps), ("Frameworks", fs)] doc.projects)
          (some "Programming") =
        renderSkillLine ("Programming Languages", ps)) := by
  refine ⟨?_, ?_, ?_⟩
  · intro hn
    simp [get_skills, h, hn]
  · intro he
    simp [get_skills, h, he]
  · intro ps fs
    rfl

/-- Witness for C6: on `docW` the argument `Programming` keeps exactly
the matching category and `zzz` falls back to the full rendering. -/
theorem get_skills_category_filter_witness :
    get_skills docW (some "Programming") =
      String.intercalate "\n"
        ((docW.skills.filter (skillCatMatch (pyLower "Programming"))).map
          renderSkillLine) ∧
    get_skills docW (some "zzz") = get_skills docW none :=
  ⟨(get_skills_category_filter docW "Programming" (by decide)).1 (by decide),
   (get_skills_category_filter docW "zzz" (by decide)).2.1 (by decide)⟩

/-- Claim C7: `search_resume` returns the fixed guidance string (not an
exception) for every blank keyword, and the literal not-found message
naming the keyword for every non-blank keyword matching no section. -/
theorem search_resume_blank_and_not_found (doc : ResumeDocument)
    (kw : String) :
    (pyBlank kw = true →
        search_resume doc kw = "Please provide a keyword to search for.") ∧
    (pyBlank kw = false → searchResults doc (pyLower kw) = [] →
        search_resume doc kw =
          "No information found related to " ++ squote ++ kw ++ squote ++
            " in the resume.") := by
  constructor
  · intro h
    simp [search_resume, h]
  · intro h he
    simp [search_resume, h, he]

/-- Witness for C7: the empty keyword yields the guidance message and
`ZzNoMatchZz` yields the not-found message on `docW`. -/
theorem search_resume_blank_and_not_found_witness :
    search_resume docW "" = "Please provide a keyword to search for." ∧
    search_resume docW "ZzNoMatchZz" =
      "No information found related to " ++ squote ++ "ZzNoMatchZz" ++
        squote ++ " in the resume." :=
  ⟨(search_resume_blank_and_not_found docW "").1 rfl,
   (search_resume_blank_and_not_found docW "ZzNoMatchZz").2 rfl (by decide)⟩
